import Mathlib

/-!
Verification of the terraform exec glue package (`pkg/terraform/exec/exec.go`).

The package is embedded shallowly:

* Handles to process-wide resources (`os.Stderr`, writers, pipes, channels)
  are modelled as natural-number identity tokens, so "the same handle, by
  identity" becomes equality of tokens.
* `runner` is translated as a pure function from an environment (the
  behaviour of its external collaborators: the configured log level, the
  outcome of `os.Pipe()`, the outcome of `configDir()`, the vendored
  handlers' `Run`, the lines written to the intercepted stderr) to an
  `Outcome` record capturing the return value and the observable effects
  (shutdown bridge started/cancelled, execution context built, handler
  invoked, final `os.Stderr`, text written to the sinks).  A Go panic
  (calling a nil function value) is the `RunResult.panic` result;
  deferred statements still run while a panic unwinds, which the outcome
  fields reflect.
* `makeShutdownCh` is translated as a function from the sequence of OS
  signals delivered during one invocation to the list of published
  shutdown events, assuming the consumer drains between signals.
-/

namespace TfExec

/-- Identity token for a process-wide resource handle (a file, writer or
channel).  Two handles are "the same, by identity" iff their tokens are
equal. -/
abbrev Handle := Nat

/-- Result of one `runner` call: either a normal return with an integer
exit code, or a Go runtime panic (the function never returns a code). -/
inductive RunResult where
  | exit (code : Int)
  | panic
deriving DecidableEq

/-- Model of Go's `filepath.Join` on clean, non-empty Unix path segments:
the segments joined by the separator. -/
def filepathJoin : List String → String
  | [] => ""
  | [p] => p
  | p :: rest => p ++ "/" ++ filepathJoin rest

/-- `globalPluginDirs` from `exec.go`: given the result of the external
`configDir()` call (not part of this file of the package) and the
`runtime.GOOS`/`runtime.GOARCH` strings, returns the candidate plugin
directory list together with the messages it printed to the `stderr`
writer. -/
def globalPluginDirs (goos goarch : String) (configDirRes : Except String String) :
    List String × List String :=
  match configDirRes with
  | Except.error err => ([], ["Error finding global config directory: " ++ err])
  | Except.ok dir =>
    let machineDir := goos ++ "_" ++ goarch
    ([filepathJoin [dir, "plugins"], filepathJoin [dir, "plugins", machineDir]], [])

/-- `Version` from `exec.go`, parameterised by the vendored
`version.Version` and `version.Prerelease` strings it reads. -/
def Version (ver prerelease : String) : String :=
  let s := "Terraform v" ++ ver
  if prerelease ≠ "" then s ++ "-" ++ prerelease else s

/-- The slice of `command.Meta` visible to this package (`ExecutionContext`
of the spec): the fields `runner` fills in. -/
structure Meta where
  color : Bool
  globalPluginDirs : List String
  uiWriter : Handle
  uiErrorWriter : Handle
  overrideDataDir : String
  shutdownCh : Handle

/-- The vendored command values the registry can construct: the
`ApplyCommand` structure (with its `Destroy` flag) and the `InitCommand`
structure, each holding the `Meta` it was built from. -/
inductive Command where
  | applyCommand (meta : Meta) (destroy : Bool)
  | initCommand (meta : Meta)

/-- The package-level registry `commands`.  Go map lookup with a single
result returns the zero value (a nil function) for an absent key, which
`Option` models as `none`. -/
def commands : String → Option (Meta → Command) := fun name =>
  if name = "apply" then some (fun meta => Command.applyCommand meta false)
  else if name = "destroy" then some (fun meta => Command.applyCommand meta true)
  else if name = "init" then some (fun meta => Command.initCommand meta)
  else none

/-- The value of the local `lf` in `runner`: either `ioutil.Discard` or a
`logutils.LevelFilter` with the given allow-list, minimum level and
output writer. -/
inductive Sink where
  | discard
  | levelFilter (levels : List String) (minLevel : String) (writer : Handle)
deriving DecidableEq

/-- One write of `text` to sink `s`: the list of lines that reach the
sink's output writer.  `ioutil.Discard` emits nothing.  The vendored
`logutils.LevelFilter` is external to this package; its line test is the
parameter `check minLevel text`. -/
def sinkEmit (check : String → String → Bool) (s : Sink) (text : String) : List String :=
  match s with
  | Sink.discard => []
  | Sink.levelFilter _ minLevel _ => if check minLevel text then [text] else []

/-- The behaviour of `runner`'s external collaborators during one call,
plus the identities of the process-wide handles it touches. -/
structure Env where
  /-- Result of the vendored `logging.LogLevel()`; `""` means no
  verbosity is configured. -/
  level : String
  /-- The vendored `logging.ValidLevels` allow-list. -/
  validLevels : List String
  /-- `os.Stderr` when `runner` is entered. -/
  initialStderr : Handle
  /-- The `stdout` writer argument. -/
  stdoutW : Handle
  /-- The `stderr` writer argument. -/
  stderrW : Handle
  /-- Whether `os.Pipe()` succeeds. -/
  pipeOk : Bool
  /-- Write end handle of the pipe when created. -/
  pipeWriteHandle : Handle
  /-- The error text when `os.Pipe()` fails. -/
  pipeErrMsg : String
  /-- Result of the external `configDir()`. -/
  configDirRes : Except String String
  /-- `runtime.GOOS`. -/
  goos : String
  /-- `runtime.GOARCH`. -/
  goarch : String
  /-- Identity of the shutdown channel `makeShutdownCh` returns. -/
  sdChId : Handle
  /-- The vendored handlers' `Run`: exit code of a command on arguments. -/
  run : Command → List String → Int
  /-- Lines written to the process error stream while it is swapped to
  the pipe (scanned by the background reader). -/
  interceptedLines : List String
  /-- The vendored `logutils.LevelFilter` line test. -/
  check : String → String → Bool

/-- Observable outcome of one `runner` call: its result and the state of
the effects at the moment it returns (or finishes unwinding). -/
structure Outcome where
  result : RunResult
  /-- The sink `log.SetOutput` installed for the duration of the call. -/
  lfInstalled : Sink
  /-- The sink the deferred `log.SetOutput(os.Stderr)` restores at exit. -/
  logOutputFinal : Handle
  /-- `makeShutdownCh` was called (signal interception registered). -/
  bridgeStarted : Bool
  /-- The deferred `cancel()` ran (signal interception reset). -/
  bridgeCancelled : Bool
  /-- The deferred `plugin.CleanupClients()` ran. -/
  cleanupRan : Bool
  /-- The `command.Meta` execution context was constructed. -/
  contextConstructed : Bool
  /-- Some registry handler's `Run` was invoked. -/
  handlerInvoked : Bool
  /-- `os.Stderr` was swapped to the pipe's write end during the call. -/
  stderrSwapped : Bool
  /-- `os.Stderr` at the moment `runner` returns. -/
  finalOsStderr : Handle
  /-- Text written to the `stderr` writer argument during the call. -/
  stderrSink : List String
  /-- Intercepted diagnostic lines delivered to the `stdout` sink by the
  background scanner through `lf`. -/
  stdoutDiagnostics : List String

/-- The `command.Meta` literal `runner` builds (lines 56–67 of
`exec.go`). -/
def mkMeta (env : Env) (dir : String) : Meta :=
  { color := false
    globalPluginDirs := (globalPluginDirs env.goos env.goarch env.configDirRes).1
    uiWriter := env.stdoutW
    uiErrorWriter := env.stderrW
    overrideDataDir := dir
    shutdownCh := env.sdChId }

/-- `runner` from `exec.go`, as a pure function from the environment to
the observable outcome.  The source sequence: build `lf`; install it as
the log output (deferring restoration); defer `plugin.CleanupClients`;
start the shutdown bridge (deferring `cancel`); build `meta` (which calls
`globalPluginDirs(stderr)`); look the command up in the registry; save
`os.Stderr` and create the pipe — on failure report to `stderr` and
return 1; swap `os.Stderr` to the write end, start the scanner goroutine
feeding `lf`, defer the close-and-restore; finally call `f(meta).Run(args)`,
which panics when `cmd` was not in the registry (`f` is nil). -/
def runner (env : Env) (cmd : String) (dir : String) (args : List String) : Outcome :=
  let lf := if env.level ≠ "" then
      Sink.levelFilter env.validLevels env.level env.stdoutW
    else Sink.discard
  let pluginDirsOut := globalPluginDirs env.goos env.goarch env.configDirRes
  let meta := mkMeta env dir
  let f := commands cmd
  let oldStderr := env.initialStderr
  if env.pipeOk = false then
    { result := RunResult.exit 1
      lfInstalled := lf
      logOutputFinal := oldStderr
      bridgeStarted := true
      bridgeCancelled := true
      cleanupRan := true
      contextConstructed := true
      handlerInvoked := false
      stderrSwapped := false
      finalOsStderr := oldStderr
      stderrSink := pluginDirsOut.2 ++ ["error creating Pipe: " ++ env.pipeErrMsg]
      stdoutDiagnostics := [] }
  else
    let diagnostics :=
      env.interceptedLines.flatMap (fun l => sinkEmit env.check lf (l ++ "\n"))
    match f with
    | none =>
      { result := RunResult.panic
        lfInstalled := lf
        logOutputFinal := oldStderr
        bridgeStarted := true
        bridgeCancelled := true
        cleanupRan := true
        contextConstructed := true
        handlerInvoked := false
        stderrSwapped := true
        finalOsStderr := oldStderr
        stderrSink := pluginDirsOut.2
        stdoutDiagnostics := diagnostics }
    | some fc =>
      { result := RunResult.exit (env.run (fc meta) args)
        lfInstalled := lf
        logOutputFinal := oldStderr
        bridgeStarted := true
        bridgeCancelled := true
        cleanupRan := true
        contextConstructed := true
        handlerInvoked := true
        stderrSwapped := true
        finalOsStderr := oldStderr
        stderrSink := pluginDirsOut.2
        stdoutDiagnostics := diagnostics }

/-- `Apply` from `exec.go`. -/
def Apply (env : Env) (datadir : String) (args : List String) : Outcome :=
  runner env "apply" datadir args

/-- `Destroy` from `exec.go`. -/
def Destroy (env : Env) (datadir : String) (args : List String) : Outcome :=
  runner env "destroy" datadir args

/-- `Init` from `exec.go`. -/
def Init (env : Env) (datadir : String) (args : List String) : Outcome :=
  runner env "init" datadir args

/-- OS signal kind, by identity token. -/
abbrev Sig := Nat

/-- The signals of `received` (the raw delivery order) that reach
`signalCh`: `signal.Notify(signalCh, handle...)` relays exactly the
members of `handle`. -/
def deliveredSignals (handle : List Sig) : List Sig → List Sig
  | [] => []
  | s :: rest =>
    if s ∈ handle then s :: deliveredSignals handle rest
    else deliveredSignals handle rest

/-- `makeShutdownCh` from `exec.go`: the registered set is
`append(append([], ignoreSignals...), forwardSignals...)`, and the
forwarding goroutine sends one `struct` value on the result channel per
signal received on `signalCh`.  With the consumer draining between
signals, the published events are one unit per delivered signal, in
receipt order. -/
def shutdownEvents (ignoreSignals forwardSignals : List Sig) (received : List Sig) :
    List Unit :=
  let handle := [] ++ ignoreSignals ++ forwardSignals
  (deliveredSignals handle received).map (fun _ => ())

/-- A concrete collaborator environment used to instantiate theorems:
verbosity unconfigured, distinct handle tokens, pipe creation succeeds,
`configDir()` resolves, every handler exits 0, no intercepted output. -/
def baseEnv : Env :=
  { level := ""
    validLevels := ["TRACE", "DEBUG", "INFO", "WARN", "ERROR"]
    initialStderr := 7
    stdoutW := 1
    stderrW := 2
    pipeOk := true
    pipeWriteHandle := 9
    pipeErrMsg := "too many open files"
    configDirRes := Except.ok "/home/user/.terraform.d"
    goos := "linux"
    goarch := "amd64"
    sdChId := 5
    run := fun _ _ => 0
    interceptedLines := []
    check := fun _ _ => true }

/-! ## Helper lemmas (shared) -/

/-- The relay of `signal.Notify` keeps exactly the registered signals, in
order. -/
theorem deliveredSignals_eq_filter (handle received : List Sig) :
    deliveredSignals handle received = received.filter (fun s => s ∈ handle) := by
  induction received with
  | nil => rfl
  | cons s rest ih =>
    by_cases h : s ∈ handle <;> simp [deliveredSignals, h, ih]

/-! ## Claim theorems -/

/-- Claim C9: for every version/prerelease pair, `Version` returns exactly
`"Terraform v<version>"` when the prerelease component is empty and
exactly `"Terraform v<version>-<prerelease>"` when it is non-empty; the
model is a pure function of the two strings, so there is no other side
effect. -/
theorem version_string_format (ver prerelease : String) :
    (prerelease = "" → Version ver prerelease = "Terraform v" ++ ver) ∧
    (prerelease ≠ "" →
      Version ver prerelease = "Terraform v" ++ ver ++ "-" ++ prerelease) := by
  constructor
  · intro h
    simp [Version, h]
  · intro h
    simp [Version, h]

/-- Witness for C9 at version `0.12.0`, prereleases `""` and `"beta1"`. -/
theorem version_string_format_witness :
    Version "0.12.0" "" = "Terraform v0.12.0" ∧
    Version "0.12.0" "beta1" = "Terraform v0.12.0-beta1" :=
  ⟨(version_string_format "0.12.0" "").1 rfl,
   (version_string_format "0.12.0" "beta1").2 (by decide)⟩

/-- Claim C8: when `configDir()` resolves to `base`, `globalPluginDirs`
returns exactly the two-element sequence `base/plugins`,
`base/plugins/goos_goarch` and reports nothing; when it fails, it
returns the empty sequence and writes one report to the error sink.  In
both cases the function returns normally (the model is total), so the
failure is never fatal to the invocation. -/
theorem globalPluginDirs_resolution (goos goarch : String) :
    (∀ dir, globalPluginDirs goos goarch (Except.ok dir) =
      ([dir ++ "/plugins", dir ++ "/plugins/" ++ goos ++ "_" ++ goarch], [])) ∧
    (∀ err, globalPluginDirs goos goarch (Except.error err) =
      ([], ["Error finding global config directory: " ++ err])) := by
  constructor
  · intro dir
    simp only [globalPluginDirs, filepathJoin, String.append_assoc]
    rfl
  · intro err
    rfl

/-- Claim C10: the registry `commands` maps exactly the names `apply`,
`destroy` and `init`; the `destroy` entry builds the same handler type
as `apply` (an `ApplyCommand`) with its `Destroy` flag set; and each
exported wrapper dispatches `runner` on a name present in the registry.
The model is a constant function, reflecting that no statement of the
package ever writes to the map after its initialisation. -/
theorem commands_registry_shape :
    (∀ name, (commands name).isSome = true ↔
      name = "apply" ∨ name = "destroy" ∨ name = "init") ∧
    (∀ meta, (commands "apply").map (fun f => f meta) =
      some (Command.applyCommand meta false)) ∧
    (∀ meta, (commands "destroy").map (fun f => f meta) =
      some (Command.applyCommand meta true)) ∧
    (∀ meta, (commands "init").map (fun f => f meta) =
      some (Command.initCommand meta)) ∧
    (∀ env d a, Apply env d a = runner env "apply" d a ∧
      Destroy env d a = runner env "destroy" d a ∧
      Init env d a = runner env "init" d a) := by
  refine ⟨?_, fun _ => rfl, fun _ => rfl, fun _ => rfl,
    fun _ _ _ => ⟨rfl, rfl, rfl⟩⟩
  intro name
  by_cases h1 : name = "apply" <;> by_cases h2 : name = "destroy" <;>
    by_cases h3 : name = "init" <;> simp [commands, h1, h2, h3]

/-- Counterexample to claim C2 as stated: with disjoint sets
`ignoreSignals = [1]` and `forwardSignals = [2]`, receiving the single
ignore-set signal `1` publishes one shutdown event, where the claim
("receiving a member of the ignore set never publishes a shutdown
event") requires zero: `makeShutdownCh` registers both sets on the same
channel and the goroutine forwards every receipt. -/
theorem ignore_signal_publishes_event_cex :
    (shutdownEvents [1] [2] [1]).length = 1 := by decide

/-- Claim C2 (amended): every received signal belonging to the union of
the two registered sets publishes exactly one shutdown event — the event
count equals the count of received registered signals, the published
events originate from a subsequence of the receipt order (order is
preserved), and in particular a burst of forward-set signals, drained
between signals, yields exactly one event per signal.  Ignore-set
members, however, publish events too. -/
theorem shutdownEvents_one_per_registered_signal
    (ignoreSignals forwardSignals received : List Sig) :
    (shutdownEvents ignoreSignals forwardSignals received).length =
      received.countP (fun s => s ∈ ignoreSignals ++ forwardSignals) ∧
    (deliveredSignals (ignoreSignals ++ forwardSignals) received).Sublist received ∧
    ((∀ s ∈ received, s ∈ forwardSignals) →
      (shutdownEvents ignoreSignals forwardSignals received).length =
        received.length) := by
  have hfil := deliveredSignals_eq_filter (ignoreSignals ++ forwardSignals) received
  refine ⟨?_, ?_, ?_⟩
  · simp only [shutdownEvents, List.nil_append, List.length_map, hfil]
    exact (List.countP_eq_length_filter _ _).symm
  · rw [hfil]
    exact List.filter_sublist received
  · intro hall
    simp only [shutdownEvents, List.nil_append, List.length_map, hfil]
    rw [← List.countP_eq_length_filter, List.countP_eq_length]
    intro s hs
    simp [List.mem_append, hall s hs]

/-- Witness for the amended C2: three forward-set signals received in a
burst publish three events. -/
theorem shutdownEvents_one_per_registered_signal_witness :
    (shutdownEvents [1] [2] [2, 2, 2]).length = [2, 2, 2].length :=
  (shutdownEvents_one_per_registered_signal [1] [2] [2, 2, 2]).2.2 (by decide)

/-- Counterexample to claim C1 as stated: for the unknown operation name
`plan` (with pipe creation succeeding), `runner` does not return a
non-zero exit code — it panics calling the nil registry entry — and it
has already started the shutdown bridge and constructed the execution
context before the lookup. -/
theorem unknown_op_cex :
    (runner baseEnv "plan" "" []).result = RunResult.panic ∧
    (runner baseEnv "plan" "" []).bridgeStarted = true ∧
    (runner baseEnv "plan" "" []).contextConstructed = true :=
  ⟨rfl, rfl, rfl⟩

/-- Claim C1 (amended): for every unknown operation name, `runner`
invokes no handler, but the shutdown bridge is started and the execution
context is constructed regardless; when the pipe was created, the call
panics on the nil registry entry instead of returning an exit code (when
pipe creation failed it returns 1 as on any pipe failure), and the
deferred releases still run — the bridge is cancelled and `os.Stderr`
is back to its original handle. -/
theorem unknown_op_behavior (env : Env) (cmd dir : String) (args : List String)
    (h : commands cmd = none) :
    (runner env cmd dir args).handlerInvoked = false ∧
    (runner env cmd dir args).bridgeStarted = true ∧
    (runner env cmd dir args).bridgeCancelled = true ∧
    (runner env cmd dir args).contextConstructed = true ∧
    (runner env cmd dir args).finalOsStderr = env.initialStderr ∧
    (env.pipeOk = true → (runner env cmd dir args).result = RunResult.panic) ∧
    (env.pipeOk = false → (runner env cmd dir args).result = RunResult.exit 1) := by
  cases hp : env.pipeOk <;> simp [runner, h, hp]

/-- Witness for the amended C1 at the unknown name `plan`. -/
theorem unknown_op_behavior_witness :
    (runner baseEnv "plan" "" []).handlerInvoked = false ∧
    (runner baseEnv "plan" "" []).finalOsStderr = baseEnv.initialStderr ∧
    (runner baseEnv "plan" "" []).result = RunResult.panic :=
  ⟨(unknown_op_behavior baseEnv "plan" "" [] rfl).1,
   (unknown_op_behavior baseEnv "plan" "" [] rfl).2.2.2.2.1,
   (unknown_op_behavior baseEnv "plan" "" [] rfl).2.2.2.2.2.1 rfl⟩

/-- Counterexample to claim C3 as stated: when pipe creation fails on an
`apply` call, `runner` returns exit code 1 — the very code the spec
assigns to dispatch errors, so not a distinct one — and the shutdown
bridge had already been started on that path. -/
theorem pipe_fail_cex :
    (runner { baseEnv with pipeOk := false } "apply" "" []).result =
      RunResult.exit 1 ∧
    (runner { baseEnv with pipeOk := false } "apply" "" []).bridgeStarted = true :=
  ⟨rfl, rfl⟩

/-- Claim C3 (amended): if pipe creation fails, `runner` reports the
error to the `stderr` writer and returns exit code 1 (the same code the
spec gives dispatch errors, not a distinct one); the handler is never
invoked and the error stream is never swapped, but the shutdown bridge
was already started — and is cancelled again — on that path. -/
theorem pipe_fail_behavior (env : Env) (cmd dir : String) (args : List String)
    (h : env.pipeOk = false) :
    (runner env cmd dir args).result = RunResult.exit 1 ∧
    (runner env cmd dir args).handlerInvoked = false ∧
    (runner env cmd dir args).stderrSwapped = false ∧
    (runner env cmd dir args).bridgeStarted = true ∧
    (runner env cmd dir args).bridgeCancelled = true ∧
    (runner env cmd dir args).finalOsStderr = env.initialStderr := by
  simp [runner, h]

/-- Witness for the amended C3 with a concrete failing pipe. -/
theorem pipe_fail_behavior_witness :
    (runner { baseEnv with pipeOk := false } "init" "" []).result =
      RunResult.exit 1 ∧
    (runner { baseEnv with pipeOk := false } "init" "" []).handlerInvoked = false :=
  ⟨(pipe_fail_behavior { baseEnv with pipeOk := false } "init" "" [] rfl).1,
   (pipe_fail_behavior { baseEnv with pipeOk := false } "init" "" [] rfl).2.1⟩

/-- Counterexample to claim C4 as stated: with the configured verbosity
`BOGUS`, which is not in the allow-list, `runner` surfaces no error
before work begins — the shutdown bridge starts, the handler is invoked
and its exit code 0 is returned. -/
theorem invalid_severity_cex :
    ("BOGUS" ∈ baseEnv.validLevels → False) ∧
    (runner { baseEnv with level := "BOGUS" } "apply" "" []).bridgeStarted = true ∧
    (runner { baseEnv with level := "BOGUS" } "apply" "" []).handlerInvoked = true ∧
    (runner { baseEnv with level := "BOGUS" } "apply" "" []).result =
      RunResult.exit 0 :=
  ⟨by decide, rfl, rfl, rfl⟩

/-- Claim C4 (amended): `runner` performs no validation of the
configured verbosity.  Any non-empty value — recognized or not — is
installed as the `LevelFilter` minimum level, and execution proceeds
normally: when the pipe is created and the name is registered, the
handler still runs.  No error is surfaced, eagerly or lazily. -/
theorem no_severity_validation (env : Env) (cmd dir : String) (args : List String)
    (hlevel : env.level ≠ "") :
    (runner env cmd dir args).lfInstalled =
      Sink.levelFilter env.validLevels env.level env.stdoutW ∧
    (env.pipeOk = true → (commands cmd).isSome = true →
      (runner env cmd dir args).handlerInvoked = true) := by
  constructor
  · cases hp : env.pipeOk <;> cases hc : commands cmd <;>
      simp [runner, hlevel, hp, hc]
  · intro hp hc
    rcases Option.isSome_iff_exists.mp hc with ⟨fc, hfc⟩
    simp [runner, hp, hfc]

/-- Witness for the amended C4 at the unrecognized severity `BOGUS`. -/
theorem no_severity_validation_witness :
    (runner { baseEnv with level := "BOGUS" } "destroy" "" []).lfInstalled =
      Sink.levelFilter baseEnv.validLevels "BOGUS" baseEnv.stdoutW ∧
    (runner { baseEnv with level := "BOGUS" } "destroy" "" []).handlerInvoked = true :=
  ⟨(no_severity_validation { baseEnv with level := "BOGUS" } "destroy" "" []
      (by decide)).1,
   (no_severity_validation { baseEnv with level := "BOGUS" } "destroy" "" []
      (by decide)).2 rfl (by decide)⟩

/-- Claim C5: for every registered operation name and argument list, and
on every exit path (pipe failure included), `runner` returns some exit
code, and at that moment `os.Stderr` is the same handle, by identity, as
before the call. -/
theorem registered_op_returns_and_restores (env : Env) (cmd dir : String)
    (args : List String) (h : (commands cmd).isSome = true) :
    (∃ code, (runner env cmd dir args).result = RunResult.exit code) ∧
    (runner env cmd dir args).finalOsStderr = env.initialStderr := by
  rcases Option.isSome_iff_exists.mp h with ⟨fc, hfc⟩
  cases hp : env.pipeOk
  · exact ⟨⟨1, by simp [runner, hp]⟩, by simp [runner, hp]⟩
  · exact ⟨⟨env.run (fc (mkMeta env dir)) args, by simp [runner, hp, hfc]⟩,
      by simp [runner, hp, hfc]⟩

/-- Witness for C5 at the registered name `init`, empty argument list. -/
theorem registered_op_returns_and_restores_witness :
    (∃ code, (runner baseEnv "init" "" []).result = RunResult.exit code) ∧
    (runner baseEnv "init" "" []).finalOsStderr = baseEnv.initialStderr :=
  registered_op_returns_and_restores baseEnv "init" "" [] (by decide)

/-- Claim C6: if no verbosity is configured (`logging.LogLevel()` is
empty), `lf` is `ioutil.Discard`, so no intercepted diagnostic line ever
reaches the `stdout` sink — for any text written to the intercepted
process error stream during the call. -/
theorem unconfigured_verbosity_discards_all (env : Env) (cmd dir : String)
    (args : List String) (h : env.level = "") :
    (runner env cmd dir args).stdoutDiagnostics = [] := by
  cases hp : env.pipeOk <;> cases hc : commands cmd <;>
    simp [runner, h, hp, hc, sinkEmit]

/-- Witness for C6: two lines written to the intercepted stream, none
delivered. -/
theorem unconfigured_verbosity_discards_all_witness :
    (runner { baseEnv with
        interceptedLines := ["[ERROR] boom", "plain text"] } "apply" "" []
      ).stdoutDiagnostics = [] :=
  unconfigured_verbosity_discards_all
    { baseEnv with interceptedLines := ["[ERROR] boom", "plain text"] }
    "apply" "" [] rfl

/-- Claim C7: for every registered operation name (and any environment
in which the pipe is created, so the handler actually runs), the exit
code `runner` returns is exactly the integer the dispatched handler's
`Run` produced — never reinterpreted or remapped. -/
theorem handler_exit_code_passthrough (env : Env) (cmd dir : String)
    (args : List String) (fc : Meta → Command) (hfc : commands cmd = some fc)
    (hp : env.pipeOk = true) :
    (runner env cmd dir args).result =
      RunResult.exit (env.run (fc (mkMeta env dir)) args) := by
  simp [runner, hfc, hp]

/-- Witness for C7: a handler exiting 42 makes `runner` return 42. -/
theorem handler_exit_code_passthrough_witness :
    (runner { baseEnv with run := fun _ _ => 42 } "destroy" "" []).result =
      RunResult.exit 42 :=
  handler_exit_code_passthrough { baseEnv with run := fun _ _ => 42 }
    "destroy" "" [] (fun meta => Command.applyCommand meta true) rfl rfl

end TfExec
